import Mathlib

/-!
Shallow embedding of the multi-wallet manager core of the `lib-wallet`
repository: the `MultiWalletManager` class (file `src/unnamed/part_002`),
the dispatch/subscription surface it exercises on loader-produced wallet
facades, and `WalletPay.addToken` (file `src/src/lib/wallet-pay.js`).

Modelling conventions:
* JS `Map` objects (`this._wallets`, `this._subs`, an asset's `_tokens`) are
  association lists kept in insertion order, with `jsMapSet` replacing in
  place and `jsMapDelete` removing the entry, as JS `Map.set` / `Map.delete`
  do on their unique keys.
* JS exceptions plus in-place mutation are modelled by every stateful
  operation returning `Except Err α × MgrState`: the state component carries
  exactly the mutations that have already happened when an exception is
  thrown.
* The durable store of the manager is modelled by its two kinds of keys:
  `storeIndex` is the value stored under the key `wallets` (absent = `none`,
  `getWalletList` defaults it to `[]` as the JS `|| []` does), and
  `storeExports` maps a wallet name `n` to the record stored under the key
  `wallet-` ++ `n` (the prefix is a bijective renaming, so interpolation of
  the JS `undefined` name becomes the literal name `"undefined"`).
* A wallet facade is the string-keyed object graph the injected wallet
  loader returns: namespaces keyed by name, each either a callable or a
  registry of resources, each resource carrying named methods and an event
  emitter's listener list.  The facade and its assets extend `EventEmitter`,
  so the properties `on` and `off` are always truthy on them; the dispatch
  model accounts for that where the source reads `wallet[req.namespace]`.
* Handler closures are represented in emitter/subscription maps by tags
  (`Handler`) recording which source closure they are and over which
  subscription key they closed; the forwarding behaviour of each closure is
  given by `runHandler`, parametrised by the caller's `notify` channel.
-/

namespace LibWallet

/-- JS values, as far as the manager inspects them: the dispatcher only ever
asks `Array.isArray`, truthiness, and string interpolation of a value. -/
inductive Value where
  | und : Value
  | bool (b : Bool) : Value
  | num (n : Int) : Value
  | str (s : String) : Value
  | arr (elems : List Value) : Value
  deriving Inhabited

/-- The errors thrown by the embedded code, one constructor per `throw`
site (plus `typeError` for JS property access on `null`/`undefined` and
`upstream` for failures raised by external collaborators). -/
inductive Err where
  | alreadyExistsMem : Err
  | alreadyExists : Err
  | walletNotFound (name : String) : Err
  | cantFindWalletData : Err
  | invalidNamespace : Err
  | invalidResource : Err
  | invalidMethod : Err
  | subLimit : Err
  | paramsNotArray : Err
  | missingEventName : Err
  | handlerNotFound (key : String) : Err
  | invalidSubOpts : Err
  | typeError : Err
  | tokenAlreadyExists (name : String) : Err
  | upstream (v : Value) : Err

/-- JS `Map.get`. -/
def jsMapGet {α : Type} : List (String × α) → String → Option α
  | [], _ => none
  | (k', v) :: rest, k => if k' = k then some v else jsMapGet rest k

/-- JS `Map.set`: replaces the value in place when the key is present,
appends at the end otherwise. -/
def jsMapSet {α : Type} : List (String × α) → String → α → List (String × α)
  | [], k, v => [(k, v)]
  | (k', v') :: rest, k, v =>
    if k' = k then (k, v) :: rest else (k', v') :: jsMapSet rest k v

/-- JS `Map.delete`: removes the entry stored under the key (keys are unique
in a JS `Map`, so removing the first occurrence is exact). -/
def jsMapDelete {α : Type} : List (String × α) → String → List (String × α)
  | [], _ => []
  | (k', v) :: rest, k => if k' = k then rest else (k', v) :: jsMapDelete rest k

theorem jsMapGet_set_self {α : Type} (m : List (String × α)) (k : String) (v : α) :
    jsMapGet (jsMapSet m k v) k = some v := by
  induction m with
  | nil => simp [jsMapGet, jsMapSet]
  | cons p rest ih =>
    obtain ⟨k', v'⟩ := p
    by_cases h : k' = k
    · simp [jsMapGet, jsMapSet, h]
    · simp [jsMapGet, jsMapSet, h, ih]

theorem jsMapGet_set_ne {α : Type} (m : List (String × α)) (k k' : String) (v : α)
    (h : k' ≠ k) : jsMapGet (jsMapSet m k v) k' = jsMapGet m k' := by
  induction m with
  | nil => simp [jsMapGet, jsMapSet, Ne.symm h]
  | cons p rest ih =>
    obtain ⟨k₀, v₀⟩ := p
    by_cases h₀ : k₀ = k
    · subst h₀
      simp [jsMapGet, jsMapSet, Ne.symm h]
    · by_cases h₁ : k₀ = k'
      · subst h₁
        simp [jsMapGet, jsMapSet, h₀]
      · simp [jsMapGet, jsMapSet, h₀, h₁, ih]

theorem jsMapSet_length_fresh {α : Type} (m : List (String × α)) (k : String) (v : α)
    (h : jsMapGet m k = none) : (jsMapSet m k v).length = m.length + 1 := by
  induction m with
  | nil => simp [jsMapSet]
  | cons p rest ih =>
    obtain ⟨k', v'⟩ := p
    by_cases h' : k' = k
    · simp [jsMapGet, h'] at h
    · simp [jsMapGet, h'] at h
      simp [jsMapSet, h', ih h]

theorem jsMapDelete_set_fresh {α : Type} (m : List (String × α)) (k : String) (v : α)
    (h : jsMapGet m k = none) : jsMapDelete (jsMapSet m k v) k = m := by
  induction m with
  | nil => simp [jsMapSet, jsMapDelete]
  | cons p rest ih =>
    obtain ⟨k', v'⟩ := p
    by_cases h' : k' = k
    · simp [jsMapGet, h'] at h
    · simp [jsMapGet, h'] at h
      simp [jsMapSet, jsMapDelete, h', ih h]

/-- JS truthiness of a `Value`. -/
def truthy : Value → Bool
  | .und => false
  | .bool b => b
  | .num n => n != 0
  | .str s => s != ""
  | .arr _ => true

mutual

/-- JS string interpolation of a `Value` (template literals stringify the
interpolated value; arrays join their elements with commas). -/
def jsToString : Value → String
  | .und => "undefined"
  | .bool b => if b then "true" else "false"
  | .num n => toString n
  | .str s => s
  | .arr l => jsToStringList l

/-- Comma-joined stringification of the elements of a JS array. -/
def jsToStringList : List Value → String
  | [] => ""
  | [v] => jsToString v
  | v :: w :: rest => jsToString v ++ "," ++ jsToStringList (w :: rest)

end

/-- JS `a || d` for an optional string `a`: `undefined` and the empty string
are falsy and select the default. -/
def jsOrD (o : Option String) (d : String) : String :=
  match o with
  | none => d
  | some s => if s = "" then d else s

/-- JS string interpolation of an optional string (`undefined` interpolates
as the literal text `undefined`). -/
def jsStrOpt (o : Option String) : String :=
  match o with
  | none => "undefined"
  | some s => s

/-- JS falsiness of an optional string (`undefined` and `""` are falsy),
used for the `if (!req.resource)` test. -/
def jsFalsyOptStr (o : Option String) : Bool :=
  match o with
  | none => true
  | some s => s == ""

/-- Identity tag of a handler closure stored in an emitter's listener list or
in the manager's subscription map: which source closure it is, and the
subscription key it closed over.  `sub` is `_subscribe`'s `eventHandler`
(try/catch-wrapped); `bootstrap` is the arrow function attached by
`_subBootstrapEvents` (no try/catch). -/
inductive Handler where
  | sub (key : String) : Handler
  | bootstrap (key : String) : Handler
  deriving Repr, DecidableEq

/-- The persisted export record of a wallet.  Only the `name` field is
inspected by the manager (`walletExport.name`); the rest of the record is
opaque to it and omitted. -/
structure WalletExport where
  name : String
  deriving Repr, DecidableEq

/-- A resource inside a namespace of a loader-produced facade (e.g. one
payment asset): its named methods, and its event-emitter listener list
(every asset extends `EventEmitter`).  A method receives the JS argument
list and resolves with a value or rejects. -/
structure ResVal where
  methods : List (String × (List Value → Except Err Value))
  listeners : List (String × Handler)

/-- A namespace-keyed member of a facade: either a directly callable member
(invoked when the request names no resource) or a registry of resources
(e.g. the `pay` asset registry). -/
inductive NsVal where
  | fn (f : List Value → Except Err Value) : NsVal
  | res (m : List (String × ResVal)) : NsVal

/-- A wallet facade as produced by the injected wallet loader: its
`walletName`, its string-keyed namespaces, its own wallet-level emitter
listener list (the facade extends `EventEmitter`, so `on`/`off` are always
present on it), and the record its `exportWallet()` resolves with. -/
structure Facade where
  walletName : String
  namespaces : List (String × NsVal)
  listeners : List (String × Handler)
  exportWallet : Except Err WalletExport

/-- Creation options passed to `createWallet` (and through it to the
loader): `name` and `store_path` (defaulted by `||` when falsy), and whether
the options carry a caller context `opts.req` for bootstrap subscriptions. -/
structure CreateOpts where
  name : Option String
  store_path : Option String
  req : Bool

/-- The single argument of the injected wallet-loader callable: either a
stored export record (possibly `null`, which the code passes through
unchecked) or creation options. -/
inductive LoaderArg where
  | fromExport (record : Option WalletExport) : LoaderArg
  | fromOpts (opts : CreateOpts) : LoaderArg

/-- The injected wallet loader: a callable producing a facade, together with
its static declaration `bootstrapEvents.pay` of bootstrap event names. -/
structure Loader where
  run : LoaderArg → Except Err Facade
  bootstrapPay : List String

/-- The options object consumed by `_setupWallet` (`opts.all` truthiness,
`opts.name`). -/
structure SetupOpts where
  all : Bool
  name : Option String

/-- A dispatch request: wallet name, namespace (`nsp`, since `namespace` is
a Lean keyword), optional resource, method and parameters.  `params` is a
JS value; the dispatcher checks `Array.isArray` on it. -/
structure CallReq where
  name : String
  nsp : String
  resource : Option String
  method : String
  params : Value

/-- The in-memory and persisted state owned by one `MultiWalletManager`:
the manager's configured store path, the store value under the key
`wallets` (the name index), the store records under the keys
`wallet-<name>` (keyed here by `<name>`), the in-memory facade map
`this._wallets`, and the subscription map `this._subs`. -/
structure MgrState where
  storePath : String
  storeIndex : Option (List String)
  storeExports : List (String × WalletExport)
  wallets : List (String × Facade)
  subs : List (String × Handler)

/-- An element of the list `_setupWallet` resolves with: the loaded facade
in the single-wallet branch, or a bare wallet-name string in the `all`
branch (which returns `walletList` itself). -/
inductive Loaded where
  | facade (w : Facade) : Loaded
  | nameStr (s : String) : Loaded

/-- The `opts` discriminator of `_subscribe`/`_unsubscribe`. -/
inductive Scope where
  | wallet : Scope
  | resource : Scope

/-- Maximum size of the subscription map (`const MAX_SUB_SIZE = 10000`). -/
def MAX_SUB_SIZE : Nat := 10000

/-- Wallet-level subscription key, the template
`«dollar»{req.name}:«dollar»{eventName}`. -/
def walletEventKey (name eventName : String) : String :=
  name ++ ":" ++ eventName

/-- Resource-level subscription key, the template
`«dollar»{req.name}:«dollar»{req.namespace}-«dollar»{req.resource}:«dollar»{eventName}`.
`_subBootstrapEvents` builds the same string with the namespace fixed to
`pay` (its template reads `...:pay-...`), so it reuses this definition with
`nsp = "pay"`. -/
def resEventKey (name nsp resource eventName : String) : String :=
  name ++ ":" ++ nsp ++ "-" ++ resource ++ ":" ++ eventName

/-- Source `getWalletList`: `(await this._store.get('wallets')) || []`. -/
def getWalletList (st : MgrState) : List String :=
  st.storeIndex.getD []

/-- Source `_updateWalletList`: `this._store.put('wallets', data)`. -/
def updateWalletList (data : List String) (st : MgrState) : MgrState :=
  { st with storeIndex := some data }

/-- Source `getWallet (_, name)`: `this._store.get(«backtick»wallet-«dollar»{name}«backtick»)`;
the store returns the record or null. -/
def getWallet (st : MgrState) (name : String) : Option WalletExport :=
  jsMapGet st.storeExports name

/-- JS `delete walletList[name]` where `walletList` is an array of wallet
names and `name` a string: it deletes an element only when `name` is the
canonical decimal string of an index into the array (in which case JS
leaves a hole, modelled here as removal — observably the same through the
membership tests the manager performs); for every other name, including
every ordinary wallet name, it is a no-op on the array. -/
def jsDeleteArrayProp (l : List String) (name : String) : List String :=
  match (List.range l.length).find? (fun i => toString i = name) with
  | some i => l.eraseIdx i
  | none => l

/-- Source `addWallet (req, walletExport)` (the `req` argument is unused by the
source): reads the index, throws `wallet already exists` if the name is
present, otherwise pushes the name, stores the export record under
`wallet-<name>` and writes the index back. -/
def addWallet (wexp : WalletExport) (st : MgrState) : Except Err Unit × MgrState :=
  let walletList := getWalletList st
  if wexp.name ∈ walletList then (.error .alreadyExists, st)
  else
    let st₁ := { st with storeExports := jsMapSet st.storeExports wexp.name wexp }
    (.ok (), updateWalletList (walletList ++ [wexp.name]) st₁)

/-- Source `removeWallet (req, name)`: reads the index, applies
`delete walletList[name]`, writes the list back. -/
def removeWallet (name : String) (st : MgrState) : MgrState :=
  updateWalletList (jsDeleteArrayProp (getWalletList st) name) st

/-- Source `_load (config)`: re-reads the export record for `config.name`, runs the
wallet loader on it (unchecked — the record may be null), and registers the
facade in the in-memory map under `config.name`.  Reading `config.name` when
`config` itself is null is the JS `TypeError` modelled by the `none` case. -/
def _load (loader : Loader) (config : Option WalletExport) (st : MgrState) :
    Except Err Facade × MgrState :=
  match config with
  | none => (.error .typeError, st)
  | some c =>
    let walletExp := getWallet st c.name
    match loader.run (.fromExport walletExp) with
    | .error e => (.error e, st)
    | .ok w => (.ok w, { st with wallets := jsMapSet st.wallets c.name w })

/-- The `walletList.map(async (walletName) => ...)` loop of `_setupWallet`'s
`opts.all` branch.  Each iteration evaluates
`this.getWallet({}.walletName)` — `{}.walletName` is `undefined`, so every
iteration reads the store key `wallet-undefined` — and feeds the result to
`_load`.  All iterations are identical up to state writes, so the
`Promise.all` over them is modelled sequentially with the first rejection
propagated. -/
def setupAllLoop (loader : Loader) (names : List String) (st : MgrState) :
    Except Err Unit × MgrState :=
  match names with
  | [] => (.ok (), st)
  | _ :: rest =>
    let config := getWallet st "undefined"
    match _load loader config st with
    | (.error e, st₁) => (.error e, st₁)
    | (.ok _, st₁) => setupAllLoop loader rest st₁

/-- Source `_setupWallet (opts)`: with `opts.all` truthy, runs the loop above over
the index and resolves with `walletList` (the name strings themselves);
otherwise reads the export record for `opts.name`, throws
`cant find wallet data` if it is absent, and resolves with the single
loaded facade. -/
def _setupWallet (loader : Loader) (opts : SetupOpts) (st : MgrState) :
    Except Err (List Loaded) × MgrState :=
  let walletList := getWalletList st
  if opts.all then
    match setupAllLoop loader walletList st with
    | (.error e, st₁) => (.error e, st₁)
    | (.ok _, st₁) => (.ok (walletList.map Loaded.nameStr), st₁)
  else
    match getWallet st (jsStrOpt opts.name) with
    | none => (.error .cantFindWalletData, st)
    | some config =>
      match _load loader (some config) st with
      | (.error e, st₁) => (.error e, st₁)
      | (.ok w, st₁) => (.ok [Loaded.facade w], st₁)

/-- The `.walletName` read that `loadWallet` maps over `_setupWallet`'s
result: property access on a facade yields its name, on a bare string it
yields JS `undefined` (`none`). -/
def loadedWalletName : Loaded → Option String
  | .facade w => some w.walletName
  | .nameStr _ => none

/-- Source `loadWallet (opts, ...param)` — the leading `opts` parameter is unused
by the source; the options object arrives as `param[0]` and is handed to
`_setupWallet`, whose result is mapped through `.walletName`. -/
def loadWallet (loader : Loader) (opts : SetupOpts) (st : MgrState) :
    Except Err (List (Option String)) × MgrState :=
  match _setupWallet loader opts st with
  | (.error e, st₁) => (.error e, st₁)
  | (.ok res, st₁) => (.ok (res.map loadedWalletName), st₁)

/-- Append the bootstrap listeners of `_subBootstrapEvents` to one asset:
`payEvents.forEach((ev) => { ... asset.on(ev, ...) })` with the key
`«dollar»{wallet.walletName}:pay-«dollar»{k}:«dollar»{ev}`. -/
def bootstrapAsset (loader : Loader) (wname k : String) (a : ResVal) : ResVal :=
  { a with listeners := a.listeners ++
      loader.bootstrapPay.map (fun ev => (ev, Handler.bootstrap (resEventKey wname "pay" k ev))) }

/-- Map a key-aware function over the values of an association list
(`wallet.pay.each((asset, k) => ...)`). -/
def mapVal {α β : Type} (f : String → α → β) : List (String × α) → List (String × β)
  | [] => []
  | (k, v) :: rest => (k, f k v) :: mapVal f rest

/-- The effect of `_subBootstrapEvents (wallet, req)` on the facade: walks
`wallet.pay` and attaches a bootstrap handler per asset per event in
`this._walletLoader.bootstrapEvents.pay`.  Reading `.each` when
`wallet.pay` is not the asset registry is the JS `TypeError`. -/
def bootstrapFacade (loader : Loader) (w : Facade) : Except Err Facade :=
  match jsMapGet w.namespaces "pay" with
  | some (NsVal.res assets) =>
    let assets' := mapVal (bootstrapAsset loader w.walletName) assets
    .ok { w with namespaces := jsMapSet w.namespaces "pay" (NsVal.res assets') }
  | _ => .error .typeError

/-- Source `_subBootstrapEvents (wallet, req)` as a state transition: the facade
object it mutates lives in the in-memory map under `mapKey` (the name it
was registered under by `createWallet` or `_load`), so the mutation is the
corresponding map update.  The subscription map `this._subs` is not
touched. -/
def _subBootstrapEvents (loader : Loader) (w : Facade) (mapKey : String) (st : MgrState) :
    Except Err Unit × MgrState :=
  match bootstrapFacade loader w with
  | .error e => (.error e, st)
  | .ok w' => (.ok (), { st with wallets := jsMapSet st.wallets mapKey w' })

/-- Source `createWallet (req, opts)`: defaults the name and store path, throws
`wallet already exists with name` if the name is materialized in memory,
runs the loader on the options, exports the facade, registers it in the
in-memory map under `wallet.walletName`, persists via `addWallet` (which
throws if the name is already in the index), and bootstraps events when the
options carry a caller context. -/
def createWallet (loader : Loader) (opts : CreateOpts) (st : MgrState) :
    Except Err WalletExport × MgrState :=
  let name := jsOrD opts.name "default"
  let storePath := jsOrD opts.store_path st.storePath
  match jsMapGet st.wallets name with
  | some _ => (.error .alreadyExistsMem, st)
  | none =>
    match loader.run (.fromOpts { name := some name, store_path := some storePath, req := opts.req }) with
    | .error e => (.error e, st)
    | .ok w =>
      match w.exportWallet with
      | .error e => (.error e, st)
      | .ok walletExport =>
        let st₁ := { st with wallets := jsMapSet st.wallets w.walletName w }
        match addWallet walletExport st₁ with
        | (.error e, st₂) => (.error e, st₂)
        | (.ok _, st₂) =>
          if opts.req then
            match _subBootstrapEvents loader w w.walletName st₂ with
            | (.error e, st₃) => (.error e, st₃)
            | (.ok _, st₃) => (.ok walletExport, st₃)
          else (.ok walletExport, st₂)

/-- Source `_getEventName (req)`: requires `req.params` to be an array, shifts its
first element off and requires it truthy; the event name is that element as
the string it interpolates to.  (The shifted tail is not read again on any
path modelled here, so it is not returned.) -/
def _getEventName (params : Value) : Except Err String :=
  match params with
  | .arr [] => .error .missingEventName
  | .arr (v :: _) => if truthy v then .ok (jsToString v) else .error .missingEventName
  | _ => .error .paramsNotArray

/-- Source `_getEventHandler (k)`: the stored handler, or
`handler does not exist <k>`. -/
def _getEventHandler (st : MgrState) (k : String) : Except Err Handler :=
  match jsMapGet st.subs k with
  | none => .error (.handlerNotFound k)
  | some h => .ok h

/-- Node `EventEmitter.removeListener`: detaches a single listener matching the
event name and the handler. -/
def emitterOff (ls : List (String × Handler)) (ev : String) (h : Handler) :
    List (String × Handler) :=
  match ls with
  | [] => []
  | (e, g) :: rest =>
    if e = ev ∧ g = h then rest else (e, g) :: emitterOff rest ev h

/-- Attach a listener to the emitter of the resource
`wallet[nsp][resource]`; `none` when the path does not resolve to a
resource (the JS property access would yield `undefined` and `.on` a
`TypeError`). -/
def attachListener (w : Facade) (nsp r ev : String) (h : Handler) : Option Facade :=
  match jsMapGet w.namespaces nsp with
  | some (NsVal.res m) =>
    match jsMapGet m r with
    | some rv =>
      let rv' := { rv with listeners := rv.listeners ++ [(ev, h)] }
      some { w with namespaces := jsMapSet w.namespaces nsp (NsVal.res (jsMapSet m r rv')) }
    | none => none
  | _ => none

/-- Detach a listener from the emitter of the resource
`wallet[nsp][resource]`. -/
def detachListener (w : Facade) (nsp r ev : String) (h : Handler) : Option Facade :=
  match jsMapGet w.namespaces nsp with
  | some (NsVal.res m) =>
    match jsMapGet m r with
    | some rv =>
      let rv' := { rv with listeners := emitterOff rv.listeners ev h }
      some { w with namespaces := jsMapSet w.namespaces nsp (NsVal.res (jsMapSet m r rv')) }
    | none => none
  | _ => none

/-- Source `_subscribe (req, wallet, opts)`: parses the event name, throws
`memory leak: too many subscriptions` when the map is exactly at
`MAX_SUB_SIZE`, derives the key for the scope, attaches the handler to the
target emitter, stores it in `this._subs` and returns the key.  The facade
mutation is written back to the in-memory map under `req.name`, where the
dispatched facade object lives. -/
def _subscribe (req : CallReq) (w : Facade) (scope : Scope) (st : MgrState) :
    Except Err Value × MgrState :=
  match _getEventName req.params with
  | .error e => (.error e, st)
  | .ok eventName =>
    if st.subs.length = MAX_SUB_SIZE then (.error .subLimit, st)
    else
      match scope with
      | .wallet =>
        let key := walletEventKey req.name eventName
        let w₁ := { w with listeners := w.listeners ++ [(eventName, Handler.sub key)] }
        (.ok (.str key),
         { st with wallets := jsMapSet st.wallets req.name w₁,
                   subs := jsMapSet st.subs key (Handler.sub key) })
      | .resource =>
        let key := resEventKey req.name req.nsp (jsStrOpt req.resource) eventName
        match attachListener w req.nsp (jsStrOpt req.resource) eventName (Handler.sub key) with
        | none => (.error .typeError, st)
        | some w₁ =>
          (.ok (.str key),
           { st with wallets := jsMapSet st.wallets req.name w₁,
                     subs := jsMapSet st.subs key (Handler.sub key) })

/-- Source `_unsubscribe (req, wallet, opts)`: parses the event name, derives the
key, looks the handler up (throwing `handler does not exist` before any
detach when it is absent), detaches it from the emitter and deletes the map
entry. -/
def _unsubscribe (req : CallReq) (w : Facade) (scope : Scope) (st : MgrState) :
    Except Err Value × MgrState :=
  match _getEventName req.params with
  | .error e => (.error e, st)
  | .ok eventName =>
    match scope with
    | .wallet =>
      let key := walletEventKey req.name eventName
      match _getEventHandler st key with
      | .error e => (.error e, st)
      | .ok h =>
        let w₁ := { w with listeners := emitterOff w.listeners eventName h }
        (.ok (.str key),
         { st with wallets := jsMapSet st.wallets req.name w₁,
                   subs := jsMapDelete st.subs key })
    | .resource =>
      let key := resEventKey req.name req.nsp (jsStrOpt req.resource) eventName
      match jsMapGet w.namespaces req.nsp with
      | some (NsVal.res m) =>
        match jsMapGet m (jsStrOpt req.resource) with
        | some _ =>
          match _getEventHandler st key with
          | .error e => (.error e, st)
          | .ok h =>
            match detachListener w req.nsp (jsStrOpt req.resource) eventName h with
            | none => (.error .typeError, st)
            | some w₁ =>
              (.ok (.str key),
               { st with wallets := jsMapSet st.wallets req.name w₁,
                         subs := jsMapDelete st.subs key })
        | none => (.error .typeError, st)
      | _ => (.error .typeError, st)

/-- The dispatch body of `callWallet` once the facade is resolved.  The
source first checks `!wallet[req.namespace]` and then branches on the
namespace being `on`/`off`; since the facade extends `EventEmitter`, the
properties `on` and `off` are always truthy, so that order is equivalent to
branching on `on`/`off` first and testing existence of any other namespace
by lookup. -/
def dispatchW (req : CallReq) (w : Facade) (st : MgrState) :
    Except Err Value × MgrState :=
  if req.nsp = "on" then _subscribe req w Scope.wallet st
  else if req.nsp = "off" then _unsubscribe req w Scope.wallet st
  else
    match jsMapGet w.namespaces req.nsp with
    | none => (.error .invalidNamespace, st)
    | some nsv =>
      if jsFalsyOptStr req.resource then
        match nsv with
        | NsVal.fn f =>
          match req.params with
          | .arr l => (f l, st)
          | _ => (.error .typeError, st)
        | NsVal.res _ => (.error .typeError, st)
      else
        match nsv with
        | NsVal.fn _ => (.error .invalidResource, st)
        | NsVal.res m =>
          match jsMapGet m (jsStrOpt req.resource) with
          | none => (.error .invalidResource, st)
          | some rv =>
            if req.method = "on" then _subscribe req w Scope.resource st
            else if req.method = "off" then _unsubscribe req w Scope.resource st
            else
              match jsMapGet rv.methods req.method with
              | none => (.error .invalidMethod, st)
              | some f =>
                match req.params with
                | .arr l => (f l, st)
                | v => (f [v], st)

/-- Source `callWallet (req)`: resolves the facade from the in-memory map or
lazily loads it through `_setupWallet({name: req.name})` (popping the
single-element result and bootstrapping events with the request as caller
context), then dispatches.  After a lazy load the dispatched object is the
freshly stored facade, read back from the map under `req.name`. -/
def callWallet (loader : Loader) (req : CallReq) (st : MgrState) :
    Except Err Value × MgrState :=
  match jsMapGet st.wallets req.name with
  | some w => dispatchW req w st
  | none =>
    match _setupWallet loader { all := false, name := some req.name } st with
    | (.error e, st₁) => (.error e, st₁)
    | (.ok res, st₁) =>
      match res.getLast? with
      | none => (.error (.walletNotFound req.name), st₁)
      | some (Loaded.nameStr _) => (.error .typeError, st₁)
      | some (Loaded.facade w) =>
        match _subBootstrapEvents loader w req.name st₁ with
        | (.error e, st₂) => (.error e, st₂)
        | (.ok _, st₂) =>
          match jsMapGet st₂.wallets req.name with
          | some w' => dispatchW req w' st₂
          | none => dispatchW req w st₂

/-- Run a sequence of dispatch requests, stopping at the first failure
(harness used to state iterated-subscription properties). -/
def runCalls (loader : Loader) (reqs : List CallReq) (st : MgrState) :
    Except Err (List Value) × MgrState :=
  match reqs with
  | [] => (.ok [], st)
  | r :: rest =>
    match callWallet loader r st with
    | (.error e, st₁) => (.error e, st₁)
    | (.ok v, st₁) =>
      match runCalls loader rest st₁ with
      | (.error e, st₂) => (.error e, st₂)
      | (.ok vs, st₂) => (.ok (v :: vs), st₂)

/-- The `eventHandler` closure created by `_subscribe` (lines 128-132):
forwards the event arguments through `req.notify(eventKey, [...args])`
inside `try { ... } catch { }`, so it resolves regardless of what the
notification channel does. -/
def subscribeEventHandler (notify : String → List Value → Except Err Unit)
    (eventKey : String) (args : List Value) : Except Err Unit :=
  match notify eventKey args with
  | .ok _ => .ok ()
  | .error _ => .ok ()

/-- The arrow-function handler attached by `_subBootstrapEvents`
(lines 185-187): forwards through `req.notify(eventKey, [...args])` with no
try/catch, so a notification failure propagates to the emitting asset. -/
def bootstrapEventHandler (notify : String → List Value → Except Err Unit)
    (eventKey : String) (args : List Value) : Except Err Unit :=
  notify eventKey args

/-- The forwarding behaviour of a stored handler tag, for a given caller
notification channel. -/
def runHandler (notify : String → List Value → Except Err Unit) :
    Handler → List Value → Except Err Unit
  | Handler.sub key, args => subscribeEventHandler notify key args
  | Handler.bootstrap key, args => bootstrapEventHandler notify key args

/-- A token registered on a payment asset (`WalletPay`); only its `name` is
read by the registration path, a `tag` distinguishes instances. -/
structure Token where
  name : String
  tag : Nat
  deriving Repr, DecidableEq

/-- Source `WalletPay.addToken (token)` (src/src/lib/wallet-pay.js lines 154-157):
`if (!this._tokens.has(token.name)) throw new Error('Token already exists ...')`
followed by `this._tokens.set(token.name, token)`. -/
def addToken (tokens : List (String × Token)) (t : Token) :
    Except Err (List (String × Token)) :=
  if (jsMapGet tokens t.name).isNone then .error (.tokenAlreadyExists t.name)
  else .ok (jsMapSet tokens t.name t)

/-! Concrete fixtures used by witnesses and counterexamples. -/

/-- Export record of the fixture wallet `alice`. -/
def expAlice : WalletExport := { name := "alice" }

/-- A concrete `getBalance` implementation resolving with `42`. -/
def balMethod : List Value → Except Err Value := fun _ => .ok (.num 42)

/-- The fixture `btc` asset: one method `getBalance`, no listeners. -/
def rvBtc : ResVal := { methods := [("getBalance", balMethod)], listeners := [] }

/-- The fixture facade: wallet `alice` with a `pay` registry holding the
`btc` asset. -/
def wAlice : Facade :=
  { walletName := "alice"
    namespaces := [("pay", NsVal.res [("btc", rvBtc)])]
    listeners := []
    exportWallet := .ok expAlice }

/-- A loader that produces the fixture facade and declares one bootstrap
`pay` event. -/
def loader0 : Loader :=
  { run := fun _ => .ok wAlice
    bootstrapPay := ["new-tx"] }

/-- Manager state with `alice` persisted (index and export record) but not
materialized. -/
def st0 : MgrState :=
  { storePath := "/tmp/w"
    storeIndex := some ["alice"]
    storeExports := [("alice", expAlice)]
    wallets := []
    subs := [] }

/-- Manager state with `alice` persisted and materialized. -/
def stA : MgrState := { st0 with wallets := [("alice", wAlice)] }

/-- A subscription map holding `MAX_SUB_SIZE` distinct keys. -/
def bigSubs : List (String × Handler) :=
  (List.range MAX_SUB_SIZE).map (fun i => (toString i, Handler.sub (toString i)))

/-- Manager state whose subscription map is at capacity, with `alice`
materialized. -/
def stBig : MgrState := { stA with subs := bigSubs }

/-- A wallet-level subscribe request (`namespace: 'on'`, `params: [e]`). -/
def onReq (n e : String) : CallReq :=
  { name := n, nsp := "on", resource := none, method := "", params := .arr [.str e] }

/-- A wallet-level unsubscribe request (`namespace: 'off'`, `params: [e]`). -/
def offReq (n e : String) : CallReq :=
  { name := n, nsp := "off", resource := none, method := "", params := .arr [.str e] }

/-- A resource-level unsubscribe request (`method: 'off'`, `params: [e]`). -/
def offResReq (n nsp r e : String) : CallReq :=
  { name := n, nsp := nsp, resource := some r, method := "off", params := .arr [.str e] }

/-- The JS argument list that reaches the target method: the parameters
spread when they are an array (`method(...req.params)`), the single
structured argument otherwise (`method(req.params)`). -/
def jsArgs : Value → List Value
  | .arr l => l
  | v => [v]

/-! The claims. -/

/-- C1: for every wallet materialized in the manager whose facade exposes
the requested namespace, resource and method, `callWallet` invokes that
method with the parameters (spread when a positional sequence, passed whole
when a single structured argument) and resolves with exactly the value the
method resolves with, propagating its failure verbatim, leaving the state
untouched. -/
theorem C1_call_invokes (loader : Loader) (st : MgrState) (req : CallReq)
    (w : Facade) (m : List (String × ResVal)) (rv : ResVal)
    (f : List Value → Except Err Value) (r : String)
    (hw : jsMapGet st.wallets req.name = some w)
    (hon : req.nsp ≠ "on") (hoff : req.nsp ≠ "off")
    (hns : jsMapGet w.namespaces req.nsp = some (NsVal.res m))
    (hres : req.resource = some r) (hr : r ≠ "")
    (hrv : jsMapGet m r = some rv)
    (hmon : req.method ≠ "on") (hmoff : req.method ≠ "off")
    (hf : jsMapGet rv.methods req.method = some f) :
    callWallet loader req st = (f (jsArgs req.params), st) := by
  simp only [callWallet, hw]
  simp only [dispatchW, if_neg hon, if_neg hoff, hns]
  rw [hres]
  simp only [jsFalsyOptStr, jsStrOpt]
  rw [if_neg (by simp [hr])]
  simp only [hrv, if_neg hmon, if_neg hmoff, hf]
  cases req.params <;> simp [jsArgs]

/-- Witness for C1: on the fixture wallet, dispatching
`pay / btc / getBalance` with empty positional parameters resolves with the
`42` the method resolves with. -/
theorem C1_call_invokes_witness :
    callWallet loader0
      { name := "alice", nsp := "pay", resource := some "btc",
        method := "getBalance", params := .arr [] } stA = (.ok (.num 42), stA) :=
  C1_call_invokes loader0 stA
    { name := "alice", nsp := "pay", resource := some "btc",
      method := "getBalance", params := .arr [] }
    wAlice [("btc", rvBtc)] rvBtc balMethod "btc"
    rfl (by decide) (by decide) rfl rfl (by decide) rfl (by decide) (by decide) rfl

/-- C2 fails on the code: with `alice` present in the persisted index but
not materialized, `createWallet` for `alice` does fail with
`wallet already exists` and leaves the index unchanged, but only after
having registered the freshly loaded facade in the in-memory wallet map —
the map differs after the failed call (an orphaned facade without a
corresponding persisted export), because `this._wallets.set` runs before
`addWallet` performs the index-duplicate check. -/
theorem C2_createWallet_orphan :
    st0.wallets = []
    ∧ createWallet loader0 { name := some "alice", store_path := none, req := false } st0
        = (.error .alreadyExists, { st0 with wallets := [("alice", wAlice)] }) :=
  ⟨rfl, rfl⟩

/-- C3 fails on the code: with the persisted index `["alice"]`,
`removeWallet "alice"` leaves the whole state — in particular the persisted
index — unchanged, because `delete walletList[name]` deletes the property
named by the wallet name from the array, which is a no-op for an ordinary
(non-index) name; the name is still in the index afterwards. -/
theorem C3_removeWallet_noop :
    removeWallet "alice" st0 = st0
    ∧ "alice" ∈ getWalletList (removeWallet "alice" st0) :=
  ⟨rfl, by decide⟩

/-- C4 counterexample: the bootstrap handler attached by
`_subBootstrapEvents` forwards the notification with no try/catch, so a
failing caller notification channel makes the handler itself fail — the
error is not swallowed at the handler boundary. -/
theorem C4_bootstrap_notify_propagates :
    runHandler (fun _ _ => .error (.upstream (.str "boom")))
        (Handler.bootstrap "alice:pay-btc:new-tx") []
      = .error (.upstream (.str "boom")) := rfl

/-- C4 amended: a handler registered through explicit subscription
(`_subscribe`'s `eventHandler`) swallows any error raised by the caller's
notification channel at the handler boundary; the bootstrap `pay` handlers
attached on wallet creation or lazy load forward the notification
unprotected. -/
theorem C4_subscribe_handler_swallows
    (notify : String → List Value → Except Err Unit) (key : String) (args : List Value) :
    runHandler notify (Handler.sub key) args = .ok () := by
  simp only [runHandler, subscribeEventHandler]
  cases notify key args <;> rfl

/-- C5 fails on the code: with `alice` in the persisted index and its
export record present, `loadWallet` with `options.all = true` rejects with
a `TypeError` instead of loading the wallet, because the `all` branch reads
`this.getWallet({}.walletName)` — the key `wallet-undefined` — so the
record lookup misses and `_load` dereferences a null record.  The
single-wallet clause of the claim holds: naming a wallet whose export
record does not exist fails with `cant find wallet data`. -/
theorem C5_loadAll_crashes :
    getWalletList st0 = ["alice"]
    ∧ getWallet st0 "alice" = some expAlice
    ∧ loadWallet loader0 { all := true, name := none } st0 = (.error .typeError, st0)
    ∧ loadWallet loader0 { all := false, name := some "bob" } st0
        = (.error .cantFindWalletData, st0) :=
  ⟨rfl, rfl, rfl, rfl⟩

/-- C6 fails on the code: `WalletPay.addToken` has its existence check
inverted — registering a token under a fresh name throws
`Token already exists`, while registering a token whose name is already in
the token map succeeds and overwrites the existing entry. -/
theorem C6_addToken_inverted :
    addToken [] { name := "USDT", tag := 0 } = .error (.tokenAlreadyExists "USDT")
    ∧ addToken [("USDT", { name := "USDT", tag := 0 })] { name := "USDT", tag := 1 }
        = .ok [("USDT", { name := "USDT", tag := 1 })] :=
  ⟨rfl, rfl⟩

/-- C7: on a materialized wallet, `callWallet` naming a namespace the
facade exposes but a resource not present in it fails with
`wallet doesnt have this resource`, and naming an existing resource but a
method not present on it fails with
`wallet resource does not have that method name`; in both cases the state
is returned untouched, so no method is invoked and nothing is mutated. -/
theorem C7_invalid_resource_method (loader : Loader) (st : MgrState) (req : CallReq)
    (w : Facade) (m : List (String × ResVal)) (r : String)
    (hw : jsMapGet st.wallets req.name = some w)
    (hon : req.nsp ≠ "on") (hoff : req.nsp ≠ "off")
    (hns : jsMapGet w.namespaces req.nsp = some (NsVal.res m))
    (hres : req.resource = some r) (hr : r ≠ "") :
    (jsMapGet m r = none → callWallet loader req st = (.error .invalidResource, st))
    ∧ (∀ rv : ResVal, jsMapGet m r = some rv → req.method ≠ "on" → req.method ≠ "off" →
        jsMapGet rv.methods req.method = none →
        callWallet loader req st = (.error .invalidMethod, st)) := by
  constructor
  · intro hmiss
    simp only [callWallet, hw]
    simp only [dispatchW, if_neg hon, if_neg hoff, hns]
    rw [hres]
    simp only [jsFalsyOptStr, jsStrOpt]
    rw [if_neg (by simp [hr])]
    simp [hmiss]
  · intro rv hrv hmon hmoff hf
    simp only [callWallet, hw]
    simp only [dispatchW, if_neg hon, if_neg hoff, hns]
    rw [hres]
    simp only [jsFalsyOptStr, jsStrOpt]
    rw [if_neg (by simp [hr])]
    simp [hrv, if_neg hmon, if_neg hmoff, hf]

/-- Witness for C7: on the fixture wallet, `pay / doge` fails with the
invalid-resource error and `pay / btc / mine` with the invalid-method
error. -/
theorem C7_invalid_resource_method_witness :
    callWallet loader0
      { name := "alice", nsp := "pay", resource := some "doge",
        method := "getBalance", params := .arr [] } stA = (.error .invalidResource, stA)
    ∧ callWallet loader0
      { name := "alice", nsp := "pay", resource := some "btc",
        method := "mine", params := .arr [] } stA = (.error .invalidMethod, stA) :=
  ⟨(C7_invalid_resource_method loader0 stA
      { name := "alice", nsp := "pay", resource := some "doge",
        method := "getBalance", params := .arr [] }
      wAlice [("btc", rvBtc)] "doge"
      rfl (by decide) (by decide) rfl rfl (by decide)).1 rfl,
   (C7_invalid_resource_method loader0 stA
      { name := "alice", nsp := "pay", resource := some "btc",
        method := "mine", params := .arr [] }
      wAlice [("btc", rvBtc)] "btc"
      rfl (by decide) (by decide) rfl rfl (by decide)).2 rvBtc rfl (by decide) (by decide) rfl⟩

/-- Evaluation of a wallet-level subscribe call below capacity: it returns
the derived key, appends the handler to the facade's listeners and stores
it in the subscription map. -/
theorem callWallet_on_ok (loader : Loader) (st : MgrState) (n e : String) (w : Facade)
    (hw : jsMapGet st.wallets n = some w) (he : e ≠ "")
    (hcap : st.subs.length ≠ MAX_SUB_SIZE) :
    callWallet loader (onReq n e) st =
      (.ok (.str (walletEventKey n e)),
       { st with
          wallets := jsMapSet st.wallets n
            { w with listeners := w.listeners ++ [(e, Handler.sub (walletEventKey n e))] },
          subs := jsMapSet st.subs (walletEventKey n e) (Handler.sub (walletEventKey n e)) }) := by
  simp only [callWallet, onReq, hw]
  simp only [dispatchW, if_pos rfl]
  simp only [_subscribe, _getEventName, truthy, jsToString, he, bne_iff_ne, ne_eq,
    not_false_iff, if_true, if_neg hcap]

/-- Evaluation of a wallet-level subscribe call with the subscription map
exactly at capacity: it throws `memory leak: too many subscriptions` and
leaves the state untouched. -/
theorem callWallet_on_atMax (loader : Loader) (st : MgrState) (n e : String) (w : Facade)
    (hw : jsMapGet st.wallets n = some w) (he : e ≠ "")
    (hcap : st.subs.length = MAX_SUB_SIZE) :
    callWallet loader (onReq n e) st = (.error .subLimit, st) := by
  simp only [callWallet, onReq, hw]
  simp only [dispatchW, if_pos rfl]
  simp only [_subscribe, _getEventName, truthy, jsToString, he, bne_iff_ne, ne_eq,
    not_false_iff, if_true, if_pos hcap]

/-- Evaluation of a wallet-level unsubscribe call whose key has a stored
handler: it returns the key, detaches the handler and deletes the map
entry. -/
theorem callWallet_off_ok (loader : Loader) (st : MgrState) (n e : String) (w : Facade)
    (h' : Handler) (hw : jsMapGet st.wallets n = some w) (he : e ≠ "")
    (hh : jsMapGet st.subs (walletEventKey n e) = some h') :
    callWallet loader (offReq n e) st =
      (.ok (.str (walletEventKey n e)),
       { st with
          wallets := jsMapSet st.wallets n { w with listeners := emitterOff w.listeners e h' },
          subs := jsMapDelete st.subs (walletEventKey n e) }) := by
  simp only [callWallet, offReq, hw]
  simp only [dispatchW, if_neg (by decide : ¬ ("off" : String) = "on"), if_pos rfl]
  simp only [_unsubscribe, _getEventName, truthy, jsToString, he, bne_iff_ne, ne_eq,
    not_false_iff, if_true, _getEventHandler, hh]

/-- Evaluation of a wallet-level unsubscribe call whose key has no stored
handler: it throws `handler does not exist` before detaching anything and
leaves the state untouched. -/
theorem callWallet_off_missing (loader : Loader) (st : MgrState) (n e : String) (w : Facade)
    (hw : jsMapGet st.wallets n = some w) (he : e ≠ "")
    (hh : jsMapGet st.subs (walletEventKey n e) = none) :
    callWallet loader (offReq n e) st
      = (.error (.handlerNotFound (walletEventKey n e)), st) := by
  simp only [callWallet, offReq, hw]
  simp only [dispatchW, if_neg (by decide : ¬ ("off" : String) = "on"), if_pos rfl]
  simp only [_unsubscribe, _getEventName, truthy, jsToString, he, bne_iff_ne, ne_eq,
    not_false_iff, if_true, _getEventHandler, hh]

/-- C9: a wallet-level subscribe for wallet `n` and event `e` returns the
key `n:e` and stores a handler under it in the subscription map; the
subsequent wallet-level unsubscribe returns the same key and removes the
entry, restoring the subscription map to its prior state; and unsubscribing
a key with no registered handler fails with `handler does not exist`,
leaving the state untouched. -/
theorem C9_subscribe_unsubscribe (loader : Loader) (st : MgrState) (n e : String)
    (w : Facade) (hw : jsMapGet st.wallets n = some w) (he : e ≠ "")
    (hcap : st.subs.length ≠ MAX_SUB_SIZE)
    (hfresh : jsMapGet st.subs (walletEventKey n e) = none) :
    ∃ st₁ : MgrState,
      callWallet loader (onReq n e) st = (.ok (.str (walletEventKey n e)), st₁)
      ∧ st₁.subs = jsMapSet st.subs (walletEventKey n e)
          (Handler.sub (walletEventKey n e))
      ∧ (callWallet loader (offReq n e) st₁).1 = .ok (.str (walletEventKey n e))
      ∧ (callWallet loader (offReq n e) st₁).2.subs = st.subs
      ∧ callWallet loader (offReq n e) st
          = (.error (.handlerNotFound (walletEventKey n e)), st) := by
  refine ⟨_, callWallet_on_ok loader st n e w hw he hcap, rfl, ?_, ?_,
    callWallet_off_missing loader st n e w hw he hfresh⟩
  · rw [callWallet_off_ok loader _ n e _ (Handler.sub (walletEventKey n e))
      (jsMapGet_set_self _ _ _) he (jsMapGet_set_self _ _ _)]
  · rw [callWallet_off_ok loader _ n e _ (Handler.sub (walletEventKey n e))
      (jsMapGet_set_self _ _ _) he (jsMapGet_set_self _ _ _)]
    exact jsMapDelete_set_fresh st.subs (walletEventKey n e) _ hfresh

/-- Witness for C9 on the fixture state: subscribe to `new-tx` on `alice`,
then unsubscribe; unsubscribing first fails with the not-found error. -/
theorem C9_subscribe_unsubscribe_witness :
    ∃ st₁ : MgrState,
      callWallet loader0 (onReq "alice" "new-tx") stA
          = (.ok (.str (walletEventKey "alice" "new-tx")), st₁)
      ∧ st₁.subs = jsMapSet stA.subs (walletEventKey "alice" "new-tx")
          (Handler.sub (walletEventKey "alice" "new-tx"))
      ∧ (callWallet loader0 (offReq "alice" "new-tx") st₁).1
          = .ok (.str (walletEventKey "alice" "new-tx"))
      ∧ (callWallet loader0 (offReq "alice" "new-tx") st₁).2.subs = stA.subs
      ∧ callWallet loader0 (offReq "alice" "new-tx") stA
          = (.error (.handlerNotFound (walletEventKey "alice" "new-tx")), stA) :=
  C9_subscribe_unsubscribe loader0 stA "alice" "new-tx" wAlice
    rfl (by decide) (by decide) rfl

/-- Filling lemma: a sequence of wallet-level subscribe calls with pairwise
distinct derived keys, all fresh, succeeds call by call as long as it fits
under the capacity, each call growing the subscription map by one. -/
theorem runOn_fill (loader : Loader) (n : String) (es : List String) :
    ∀ (st : MgrState),
      (jsMapGet st.wallets n).isSome = true →
      (∀ e ∈ es, e ≠ "" ∧ jsMapGet st.subs (walletEventKey n e) = none) →
      (es.map (walletEventKey n)).Nodup →
      st.subs.length + es.length ≤ MAX_SUB_SIZE →
      ∃ st' : MgrState,
        runCalls loader (es.map (onReq n)) st
          = (.ok (es.map (fun e => Value.str (walletEventKey n e))), st')
        ∧ st'.subs.length = st.subs.length + es.length := by
  induction es with
  | nil =>
    intro st _ _ _ _
    exact ⟨st, by simp [runCalls], by simp⟩
  | cons e es ih =>
    intro st hw hes hnd hcap
    obtain ⟨w, hw'⟩ : ∃ w, jsMapGet st.wallets n = some w := by
      cases h : jsMapGet st.wallets n with
      | none => rw [h] at hw; simp at hw
      | some w => exact ⟨w, rfl⟩
    have he : e ≠ "" := (hes e (List.mem_cons_self e es)).1
    have hfresh : jsMapGet st.subs (walletEventKey n e) = none :=
      (hes e (List.mem_cons_self e es)).2
    have hlen : st.subs.length + (es.length + 1) ≤ MAX_SUB_SIZE := by
      simpa using hcap
    have hcap' : st.subs.length ≠ MAX_SUB_SIZE := by omega
    have hsub := callWallet_on_ok loader st n e w hw' he hcap'
    simp only [List.map_cons, List.nodup_cons] at hnd
    obtain ⟨hkeyNotIn, hndTail⟩ := hnd
    set st₁ : MgrState :=
      { st with
          wallets := jsMapSet st.wallets n
            { w with listeners := w.listeners ++ [(e, Handler.sub (walletEventKey n e))] },
          subs := jsMapSet st.subs (walletEventKey n e)
            (Handler.sub (walletEventKey n e)) } with hst₁
    have hlen₁ : st₁.subs.length = st.subs.length + 1 :=
      jsMapSet_length_fresh st.subs (walletEventKey n e) _ hfresh
    have hw₁ : (jsMapGet st₁.wallets n).isSome = true := by
      rw [hst₁]
      simp [jsMapGet_set_self]
    have hes₁ : ∀ e' ∈ es, e' ≠ "" ∧ jsMapGet st₁.subs (walletEventKey n e') = none := by
      intro e' he'
      refine ⟨(hes e' (List.mem_cons_of_mem e he')).1, ?_⟩
      have hne : walletEventKey n e' ≠ walletEventKey n e := by
        intro hEq
        exact hkeyNotIn (hEq ▸ List.mem_map_of_mem (walletEventKey n) he')
      rw [hst₁]
      simp only [jsMapGet_set_ne _ _ _ _ hne]
      exact (hes e' (List.mem_cons_of_mem e he')).2
    have hcap₁ : st₁.subs.length + es.length ≤ MAX_SUB_SIZE := by
      rw [hlen₁]; omega
    obtain ⟨st', hrun, hlen'⟩ := ih st₁ hw₁ hes₁ hndTail hcap₁
    refine ⟨st', ?_, ?_⟩
    · simp only [List.map, runCalls, hsub, hrun]
    · rw [hlen', hlen₁, List.length_cons]; omega

/-- C8: starting from an empty subscription map, wallet-level subscribe
calls with any number of pairwise distinct keys up to the configured
maximum all succeed, returning their keys and leaving exactly that many
entries in the map; and a subscribe call issued when the map holds exactly
`MAX_SUB_SIZE` entries fails with
`memory leak: too many subscriptions`, leaving the state (in particular the
subscription map) untouched, so no handler is registered. -/
theorem C8_subscription_capacity (loader : Loader) (n : String) :
    (∀ (st : MgrState) (es : List String),
       st.subs = [] →
       (jsMapGet st.wallets n).isSome = true →
       (es.map (walletEventKey n)).Nodup →
       (∀ e ∈ es, e ≠ "") →
       es.length ≤ MAX_SUB_SIZE →
       ∃ st' : MgrState,
         runCalls loader (es.map (onReq n)) st
           = (.ok (es.map (fun e => Value.str (walletEventKey n e))), st')
         ∧ st'.subs.length = es.length)
    ∧ (∀ (st : MgrState) (e : String) (w : Facade),
       jsMapGet st.wallets n = some w →
       st.subs.length = MAX_SUB_SIZE →
       e ≠ "" →
       callWallet loader (onReq n e) st = (.error .subLimit, st)) := by
  constructor
  · intro st es hemp hw hnd hne hlen
    obtain ⟨st', h₁, h₂⟩ := runOn_fill loader n es st hw
      (fun e heIn => ⟨hne e heIn, by rw [hemp]; rfl⟩) hnd
      (by rw [hemp]; simpa using hlen)
    refine ⟨st', h₁, ?_⟩
    rw [h₂, hemp]
    simp
  · intro st e w hw hcap he
    exact callWallet_on_atMax loader st n e w hw he hcap

/-- The capacity-state fixture's subscription map has exactly
`MAX_SUB_SIZE` entries. -/
theorem stBig_subs_len : stBig.subs.length = MAX_SUB_SIZE := by
  simp only [stBig, bigSubs]
  simp

/-- Witness for C8: two distinct subscriptions from the empty map both
succeed, and a subscribe call on a state whose map holds exactly
`MAX_SUB_SIZE` entries fails with the limit error. -/
theorem C8_subscription_capacity_witness :
    (∃ st' : MgrState,
       runCalls loader0 (["a", "b"].map (onReq "alice")) stA
         = (.ok (["a", "b"].map (fun e => Value.str (walletEventKey "alice" e))), st')
       ∧ st'.subs.length = (["a", "b"] : List String).length)
    ∧ callWallet loader0 (onReq "alice" "x") stBig = (.error .subLimit, stBig) :=
  ⟨(C8_subscription_capacity loader0 "alice").1 stA ["a", "b"]
      rfl rfl (by decide) (by decide) (by decide),
   (C8_subscription_capacity loader0 "alice").2 stBig "x" wAlice rfl
      stBig_subs_len (by decide)⟩

theorem jsMapGet_mapVal {α β : Type} (f : String → α → β) (m : List (String × α))
    (k : String) : jsMapGet (mapVal f m) k = (jsMapGet m k).map (f k) := by
  induction m with
  | nil => simp [mapVal, jsMapGet]
  | cons p rest ih =>
    obtain ⟨k', v⟩ := p
    by_cases h : k' = k
    · subst h
      simp [mapVal, jsMapGet]
    · simp [mapVal, jsMapGet, h, ih]

/-- The facade produced by `bootstrapFacade` when the `pay` registry holds
`assets`: every asset gains its bootstrap listeners. -/
def bootstrappedFacade (loader : Loader) (w : Facade) (assets : List (String × ResVal)) : Facade :=
  let assets' := mapVal (bootstrapAsset loader w.walletName) assets
  { w with namespaces := jsMapSet w.namespaces "pay" (NsVal.res assets') }

/-- C10: bootstrap handlers attached by `_subBootstrapEvents` on wallet
creation or lazy load are never recorded in the subscription map: the map
is unchanged by bootstrap (so bootstrap handlers do not count toward the
capacity limit), the handler is attached to the asset's emitter under the
resource-scoped key, and an unsubscribe request for that key with no
intervening explicit subscribe fails with `handler does not exist`, leaving
the state — including the attached bootstrap handler — untouched. -/
theorem C10_bootstrap_not_in_subs (loader : Loader) (st : MgrState) (w : Facade)
    (assets : List (String × ResVal)) (a : ResVal) (r ev : String)
    (hpay : jsMapGet w.namespaces "pay" = some (NsVal.res assets))
    (hr : jsMapGet assets r = some a) (hrne : r ≠ "")
    (hev : ev ∈ loader.bootstrapPay) (hevne : ev ≠ "")
    (hfresh : jsMapGet st.subs (resEventKey w.walletName "pay" r ev) = none) :
    ∃ st₁ : MgrState,
      _subBootstrapEvents loader w w.walletName st = (.ok (), st₁)
      ∧ st₁.subs = st.subs
      ∧ (∃ w₁ : Facade, ∃ assets₁ : List (String × ResVal), ∃ a₁ : ResVal,
          jsMapGet st₁.wallets w.walletName = some w₁
          ∧ jsMapGet w₁.namespaces "pay" = some (NsVal.res assets₁)
          ∧ jsMapGet assets₁ r = some a₁
          ∧ (ev, Handler.bootstrap (resEventKey w.walletName "pay" r ev)) ∈ a₁.listeners)
      ∧ callWallet loader (offResReq w.walletName "pay" r ev) st₁
          = (.error (.handlerNotFound (resEventKey w.walletName "pay" r ev)), st₁) := by
  refine ⟨{ st with wallets := jsMapSet st.wallets w.walletName (bootstrappedFacade loader w assets) },
    ?_, rfl, ?_, ?_⟩
  · simp only [_subBootstrapEvents, bootstrapFacade, hpay, bootstrappedFacade]
  · refine ⟨bootstrappedFacade loader w assets,
      mapVal (bootstrapAsset loader w.walletName) assets,
      bootstrapAsset loader w.walletName r a,
      jsMapGet_set_self _ _ _, ?_, ?_, ?_⟩
    · simp only [bootstrappedFacade]
      exact jsMapGet_set_self _ _ _
    · rw [jsMapGet_mapVal, hr]
      rfl
    · apply List.mem_append_right
      exact List.mem_map_of_mem _ hev
  · simp only [callWallet, offResReq, jsMapGet_set_self]
    simp only [dispatchW, bootstrappedFacade, if_neg (by decide : ¬ ("pay" : String) = "on"),
      if_neg (by decide : ¬ ("pay" : String) = "off"), jsMapGet_set_self]
    simp only [jsFalsyOptStr, jsStrOpt]
    rw [if_neg (by simp [hrne])]
    rw [jsMapGet_mapVal, hr]
    simp only [Option.map_some', if_neg (by decide : ¬ ("off" : String) = "on"), if_pos rfl]
    simp only [_unsubscribe, _getEventName, truthy, jsToString, hevne, bne_iff_ne, ne_eq,
      not_false_iff, if_true, jsStrOpt, jsMapGet_set_self]
    rw [jsMapGet_mapVal, hr]
    simp only [Option.map_some', _getEventHandler, hfresh]

/-- Witness for C10 on the fixtures: bootstrapping `alice` attaches the
`new-tx` handler to the `btc` asset without touching the subscription map,
and unsubscribing the bootstrap key fails with the not-found error. -/
theorem C10_bootstrap_not_in_subs_witness :
    ∃ st₁ : MgrState,
      _subBootstrapEvents loader0 wAlice wAlice.walletName st0 = (.ok (), st₁)
      ∧ st₁.subs = st0.subs
      ∧ (∃ w₁ : Facade, ∃ assets₁ : List (String × ResVal), ∃ a₁ : ResVal,
          jsMapGet st₁.wallets wAlice.walletName = some w₁
          ∧ jsMapGet w₁.namespaces "pay" = some (NsVal.res assets₁)
          ∧ jsMapGet assets₁ "btc" = some a₁
          ∧ ("new-tx", Handler.bootstrap (resEventKey wAlice.walletName "pay" "btc" "new-tx"))
              ∈ a₁.listeners)
      ∧ callWallet loader0 (offResReq wAlice.walletName "pay" "btc" "new-tx") st₁
          = (.error (.handlerNotFound (resEventKey wAlice.walletName "pay" "btc" "new-tx")), st₁) :=
  C10_bootstrap_not_in_subs loader0 st0 wAlice [("btc", rvBtc)] rvBtc "btc" "new-tx"
    rfl rfl (by decide) (by decide) (by decide) rfl

end LibWallet
